import Mathlib

/-!
Shallow embedding of the UE4 RealSense plugin core
(`Plugins/RealSensePlugin/Source/RealSensePlugin/Private/RealSenseImpl.cpp`).

The embedding models `RealSenseImpl` as an explicit state record `RSState`.
External RSSDK calls (`PXCSenseManager`, `PXC3DScan`, `PXCFaceModule`) are
modeled by their effect on that state: handle-returning calls hand out
handle identifiers, status-returning calls take the externally produced
status as a parameter, and image copies performed by the external
`CopyColorImageToBuffer` / `CopyDepthImageToBuffer` routines are modeled by
the number of bytes they write.  The `std::vector` image buffers of a
`RealSenseDataFrame` are modeled by their element counts (their contents are
produced entirely by those external copy routines); `resize(n)` sets the
count to `n`, `clear()` sets it to `0`, and a copy of `n` bytes through
`data()` into a buffer of smaller current size is recorded in the `oobWrite`
flag (the vector's size is not changed by writing through `data()`).
Dereferencing a null or released handle is recorded in the `fault` flag.
-/

namespace RealSense

/-- `FStreamResolution`: width, height and frame rate of a stream profile
(the `float fps` is idealized as a rational). -/
structure FStreamResolution where
  width : Nat
  height : Nat
  fps : ℚ
deriving DecidableEq

/-- One `RealSenseDataFrame`: the frame number and the element counts of the
three image buffers, plus the head-tracking count. -/
structure RealSenseDataFrame where
  number : Nat
  colorImage : Nat
  depthImage : Nat
  scanImage : Nat
  headCount : Nat
deriving DecidableEq

/-- The three `RealSenseFeature` enum values used as bit flags. -/
inductive RealSenseFeature where
  | CAMERA_STREAMING
  | SCAN_3D
  | HEAD_TRACKING
deriving DecidableEq

/-- Modelled from the spec: the `RealSenseFeature` enum itself lives in a
plugin header that is not part of this repository's sources; the spec
describes the feature set as "a bit-flag-style set" over the three features,
so the three enumerators are given the distinct bits 1, 2 and 4. -/
def featureBit : RealSenseFeature → Nat
  | .CAMERA_STREAMING => 1
  | .SCAN_3D => 2
  | .HEAD_TRACKING => 4

/-- The state of a `RealSenseImpl` instance.  SDK object handles are
`Option Nat` identifiers (`none` is a null/uninitialized pointer);
`releasedHandles` records which identifiers have had `Release()` called on
them; `fault` records a dereference of a null or released handle;
`oobWrite` records a copy that wrote past the target buffer's current size. -/
structure RSState where
  realSenseFeatureSet : Nat
  colorStreamingEnabled : Bool
  depthStreamingEnabled : Bool
  scan3DEnabled : Bool
  faceEnabled : Bool
  cameraThreadRunning : Bool
  scanStarted : Bool
  scanStopped : Bool
  reconstructEnabled : Bool
  scanCompleted : Bool
  scan3DImageSizeChanged : Bool
  colorResolution : FStreamResolution
  depthResolution : FStreamResolution
  scan3DResolution : FStreamResolution
  scan3DFileFormat : Nat
  scan3DFilename : String
  bgFrame : RealSenseDataFrame
  midFrame : RealSenseDataFrame
  fgFrame : RealSenseDataFrame
  currentFrame : Nat
  status : Int
  p3DScan : Option Nat
  pFace : Option Nat
  faceConfig : Option Nat
  faceData : Option Nat
  nextHandle : Nat
  releasedHandles : List Nat
  fault : Bool
  oobWrite : Bool
deriving DecidableEq

/-- A fresh `RealSenseDataFrame` (`new RealSenseDataFrame()`): number 0 and
empty buffers. -/
def emptyFrame : RealSenseDataFrame :=
  { number := 0, colorImage := 0, depthImage := 0, scanImage := 0, headCount := 0 }

/-- The handle identifier of the `PXC3DScan` module returned by
`senseManager->Query3DScan()` (the sense manager owns one such module, so
repeated queries return the same handle). -/
def scan3DModuleHandle : Nat := 1

/-- The handle identifier of the face module returned by
`senseManager->QueryFace()`. -/
def faceModuleHandle : Nat := 2

/-- State established by the `RealSenseImpl` constructor: feature set 0, all
feature and scan flags false, empty frames, zero resolutions, OBJ file
format, null module handles.  `faceConfig` and `faceData` are member
pointers the constructor never initializes; they are modeled as null. -/
def initState : RSState :=
  { realSenseFeatureSet := 0
    colorStreamingEnabled := false
    depthStreamingEnabled := false
    scan3DEnabled := false
    faceEnabled := false
    cameraThreadRunning := false
    scanStarted := false
    scanStopped := false
    reconstructEnabled := false
    scanCompleted := false
    scan3DImageSizeChanged := false
    colorResolution := { width := 0, height := 0, fps := 0 }
    depthResolution := { width := 0, height := 0, fps := 0 }
    scan3DResolution := { width := 0, height := 0, fps := 0 }
    scan3DFileFormat := 0
    scan3DFilename := ""
    bgFrame := emptyFrame
    midFrame := emptyFrame
    fgFrame := emptyFrame
    currentFrame := 0
    status := 0
    p3DScan := none
    pFace := none
    faceConfig := none
    faceData := none
    nextHandle := 10
    releasedHandles := []
    fault := false
    oobWrite := false }

/-- Calling a method through an SDK handle: dereferencing a null handle or a
handle that has already been released is a fault. -/
def derefHandle (h : Option Nat) (s : RSState) : RSState :=
  match h with
  | none => { s with fault := true }
  | some i => if i ∈ s.releasedHandles then { s with fault := true } else s

/-- `handle->Release()`: releasing a null handle or releasing a handle twice
is a fault; otherwise the handle identifier is recorded as released (the
member pointer itself is not nulled by the source). -/
def releaseHandle (h : Option Nat) (s : RSState) : RSState :=
  match h with
  | none => { s with fault := true }
  | some i =>
      if i ∈ s.releasedHandles then { s with fault := true }
      else { s with releasedHandles := i :: s.releasedHandles }

/-- `RealSenseImpl::EnableRealSenseFeature` (lines 255-281): records the
feature bit in `RealSenseFeatureSet`, then runs the feature's setup.
`SCAN_3D` queries the scan module handle; `HEAD_TRACKING` queries the face
module handle and creates a fresh active configuration handle. -/
def enableRealSenseFeature (feature : RealSenseFeature) (s : RSState) : RSState :=
  let s1 := { s with realSenseFeatureSet := s.realSenseFeatureSet ||| featureBit feature }
  match feature with
  | .CAMERA_STREAMING =>
      { s1 with colorStreamingEnabled := true, depthStreamingEnabled := true }
  | .SCAN_3D =>
      { s1 with p3DScan := some scan3DModuleHandle, scan3DEnabled := true }
  | .HEAD_TRACKING =>
      { s1 with pFace := some faceModuleHandle,
                faceConfig := some s1.nextHandle,
                nextHandle := s1.nextHandle + 1,
                faceEnabled := true }

/-- `RealSenseImpl::EnableRealSenseFeatures` (lines 285-293): enables each
feature whose bit is present in the input set. -/
def enableRealSenseFeatures (featureSet : Nat) (s : RSState) : RSState :=
  let s1 := if featureSet &&& featureBit .CAMERA_STREAMING ≠ 0 then
              enableRealSenseFeature .CAMERA_STREAMING s else s
  let s2 := if featureSet &&& featureBit .SCAN_3D ≠ 0 then
              enableRealSenseFeature .SCAN_3D s1 else s1
  if featureSet &&& featureBit .HEAD_TRACKING ≠ 0 then
    enableRealSenseFeature .HEAD_TRACKING s2 else s2

/-- `RealSenseImpl::DisableRealSenseFeature` (lines 295-309): clears the
feature's flags; for `HEAD_TRACKING` it calls `Release()` on the
`faceConfig` and `faceData` handles (with no null check).  It never touches
`RealSenseFeatureSet`. -/
def disableRealSenseFeature (feature : RealSenseFeature) (s : RSState) : RSState :=
  match feature with
  | .CAMERA_STREAMING =>
      { s with colorStreamingEnabled := false, depthStreamingEnabled := false }
  | .SCAN_3D =>
      { s with scan3DEnabled := false }
  | .HEAD_TRACKING =>
      let s1 := releaseHandle s.faceConfig s
      let s2 := releaseHandle s1.faceData s1
      { s2 with faceEnabled := false }

/-- `RealSenseImpl::DisableRealSenseFeatures` (lines 311-319). -/
def disableRealSenseFeatures (featureSet : Nat) (s : RSState) : RSState :=
  let s1 := if featureSet &&& featureBit .CAMERA_STREAMING ≠ 0 then
              disableRealSenseFeature .CAMERA_STREAMING s else s
  let s2 := if featureSet &&& featureBit .SCAN_3D ≠ 0 then
              disableRealSenseFeature .SCAN_3D s1 else s1
  if featureSet &&& featureBit .HEAD_TRACKING ≠ 0 then
    disableRealSenseFeature .HEAD_TRACKING s2 else s2

/-- `RealSenseImpl::StartCamera` (lines 223-229): marks the camera thread
running if it was not (the spawned thread's own work is the `threadInit`
and `iteration` operations). -/
def startCamera (s : RSState) : RSState :=
  if s.cameraThreadRunning = false then { s with cameraThreadRunning := true } else s

/-- `RealSenseImpl::StopCamera` (lines 234-244): stops the thread, then
disables the recorded feature set, closes the sense manager and re-enables
the same feature set. -/
def stopCamera (s : RSState) : RSState :=
  let s1 := if s.cameraThreadRunning = true then { s with cameraThreadRunning := false } else s
  let s2 := disableRealSenseFeatures s1.realSenseFeatureSet s1
  enableRealSenseFeatures s2.realSenseFeatureSet s2

/-- `RealSenseImpl::SwapFrames` (lines 247-252): the consumer-side swap;
exchanges mid and foreground only when the foreground number is strictly
below the mid number. -/
def swapFrames (s : RSState) : RSState :=
  if s.fgFrame.number < s.midFrame.number then
    { s with fgFrame := s.midFrame, midFrame := s.fgFrame }
  else s

/-- `RealSenseImpl::SetColorCameraResolution` (lines 342-353): records the
looked-up resolution, calls `EnableStream` (its status is the external
parameter `st`, `0` being `PXC_STATUS_NO_ERROR`), and resizes the three
color buffers to `width * height * 4` only on success. -/
def setColorCameraResolution (res : FStreamResolution) (st : Int) (s : RSState) : RSState :=
  let s1 := { s with colorResolution := res, status := st }
  if st = 0 then
    { s1 with bgFrame := { s1.bgFrame with colorImage := res.width * res.height * 4 },
              midFrame := { s1.midFrame with colorImage := res.width * res.height * 4 },
              fgFrame := { s1.fgFrame with colorImage := res.width * res.height * 4 } }
  else s1

/-- `RealSenseImpl::SetDepthCameraResolution` (lines 357-368): same shape as
the color setter; the depth buffers hold `width * height` elements. -/
def setDepthCameraResolution (res : FStreamResolution) (st : Int) (s : RSState) : RSState :=
  let s1 := { s with depthResolution := res, status := st }
  if st = 0 then
    { s1 with bgFrame := { s1.bgFrame with depthImage := res.width * res.height },
              midFrame := { s1.midFrame with depthImage := res.width * res.height },
              fgFrame := { s1.fgFrame with depthImage := res.width * res.height } }
  else s1

/-- `RealSenseImpl::StartScanning` (lines 444-448). -/
def startScanning (s : RSState) : RSState :=
  { s with scanStarted := true, scanCompleted := false }

/-- `RealSenseImpl::StopScanning` (lines 453-456). -/
def stopScanning (s : RSState) : RSState :=
  { s with scanStopped := true }

/-- `RealSenseImpl::ResetScanning` (lines 460-465): stores false then true
into `scan3DEnabled` around a `SetConfiguration` round trip on the scan
module handle. -/
def resetScanning (s : RSState) : RSState :=
  let s1 := derefHandle s.p3DScan { s with scan3DEnabled := false }
  { s1 with scan3DEnabled := true }

/-- `RealSenseImpl::SaveScan` (lines 470-475). -/
def saveScan (fmt : Nat) (filename : String) (s : RSState) : RSState :=
  { s with scan3DFileFormat := fmt, scan3DFilename := filename, reconstructEnabled := true }

/-- `RealSenseImpl::UpdateScan3DImageSize` (lines 530-543): if the preview
image dimensions differ from the recorded scan resolution, record the new
dimensions, resize all three scan buffers to `w * h * 4` and mark the size
change. -/
def updateScan3DImageSize (w h : Nat) (s : RSState) : RSState :=
  if s.scan3DResolution.width = w ∧ s.scan3DResolution.height = h then s
  else
    { s with
      scan3DResolution := { s.scan3DResolution with width := w, height := h },
      bgFrame := { s.bgFrame with scanImage := w * h * 4 },
      midFrame := { s.midFrame with scanImage := w * h * 4 },
      fgFrame := { s.fgFrame with scanImage := w * h * 4 },
      scan3DImageSizeChanged := true }

/-- The externally produced data consumed by one iteration of
`RealSenseImpl::CameraThread`: the `AcquireFrame` status, which payloads the
sample carries, the preview image dimensions if the scan module returns one,
the `Reconstruct` status, and the detected face count. -/
structure CameraInput where
  acquireStatus : Int
  hasColorSample : Bool
  hasDepthSample : Bool
  previewImage : Option (Nat × Nat)
  reconstructStatus : Int
  faceCount : Nat
deriving DecidableEq

/-- An external copy routine writing `bytes` elements through `data()` into
a buffer currently holding `bufSize` elements: the buffer's size is
unchanged, and a write past the current size is recorded. -/
def copyToBuffer (bytes bufSize : Nat) (s : RSState) : RSState :=
  if bufSize < bytes then { s with oobWrite := true } else s

/-- `bgFrame->number = ++currentFrame` (line 139). -/
def frameNumberStage (s : RSState) : RSState :=
  { s with currentFrame := s.currentFrame + 1,
           bgFrame := { s.bgFrame with number := s.currentFrame + 1 } }

/-- Color streaming stage (lines 156-159): when enabled and the sample has a
color payload, `colorImage.clear()` (size becomes 0) followed by the
external copy of `width * height * 4` bytes through `data()`. -/
def colorStage (inp : CameraInput) (s : RSState) : RSState :=
  if s.colorStreamingEnabled && inp.hasColorSample then
    let s1 := { s with bgFrame := { s.bgFrame with colorImage := 0 } }
    copyToBuffer (s1.colorResolution.width * s1.colorResolution.height * 4)
      s1.bgFrame.colorImage s1
  else s

/-- Depth streaming stage (lines 161-162). -/
def depthStage (inp : CameraInput) (s : RSState) : RSState :=
  if s.depthStreamingEnabled && inp.hasDepthSample then
    copyToBuffer (s.depthResolution.width * s.depthResolution.height)
      s.bgFrame.depthImage s
  else s

/-- Scan-start sub-step (lines 165-170): configuration round trip on the
scan module handle, then the flag is cleared. -/
def scanStartStep (s : RSState) : RSState :=
  if s.scanStarted then
    let s1 := derefHandle s.p3DScan s
    { s1 with scanStarted := false }
  else s

/-- Scan-stop sub-step (lines 172-177). -/
def scanStopStep (s : RSState) : RSState :=
  if s.scanStopped then
    let s1 := derefHandle s.p3DScan s
    { s1 with scanStopped := false }
  else s

/-- Preview sub-step (lines 179-184): `AcquirePreviewImage` is called on the
scan module handle; if it yields an image, the scan buffers are resized to
its dimensions before the copy into the background scan buffer. -/
def previewStep (inp : CameraInput) (s : RSState) : RSState :=
  let s1 := derefHandle s.p3DScan s
  match inp.previewImage with
  | some wh =>
      let s2 := updateScan3DImageSize wh.1 wh.2 s1
      copyToBuffer (s2.scan3DResolution.width * s2.scan3DResolution.height * 4)
        s2.bgFrame.scanImage s2
  | none => s1

/-- Reconstruct sub-step (lines 186-190): when a reconstruct request is
pending, `Reconstruct` is invoked (its status is the external
`reconstructStatus`), the request flag is cleared and `scanCompleted` is set
without inspecting the status. -/
def reconstructStep (inp : CameraInput) (s : RSState) : RSState :=
  if s.reconstructEnabled then
    let s1 := derefHandle s.p3DScan s
    { s1 with status := inp.reconstructStatus,
              reconstructEnabled := false,
              scanCompleted := true }
  else s

/-- SCAN_3D stage (lines 164-191). -/
def scanStage (inp : CameraInput) (s : RSState) : RSState :=
  if s.scan3DEnabled then
    reconstructStep inp (previewStep inp (scanStopStep (scanStartStep s)))
  else s

/-- HEAD_TRACKING stage (lines 193-212): guarded by a null check on `pFace`;
updates the face data handle and stores the detected count into the
background frame. -/
def faceStage (inp : CameraInput) (s : RSState) : RSState :=
  if s.faceEnabled then
    if s.pFace.isSome then
      let s1 := derefHandle s.faceData s
      { s1 with bgFrame := { s1.bgFrame with headCount := inp.faceCount } }
    else s
  else s

/-- Publication (lines 217-218): under the mid-frame mutex, exchange the
background and mid frame handles. -/
def publishStage (s : RSState) : RSState :=
  { s with bgFrame := s.midFrame, midFrame := s.bgFrame }

/-- One iteration of the `while` loop of `RealSenseImpl::CameraThread`
(lines 133-219): a failed `AcquireFrame` skips the whole iteration;
otherwise the frame number is bumped, the enabled stages run, and the
background frame is published. -/
def cameraIteration (inp : CameraInput) (s : RSState) : RSState :=
  let s0 := { s with status := inp.acquireStatus }
  if inp.acquireStatus ≠ 0 then s0
  else
    publishStage (faceStage inp (scanStage inp (depthStage inp
      (colorStage inp (frameNumberStage s0)))))

/-- The prologue of `RealSenseImpl::CameraThread` (lines 119-131): zero the
three frame numbers and the local frame counter, record the `Init` status;
on failure the thread returns before the loop; otherwise, when face
tracking is enabled, `faceData = pFace->CreateOutput()` allocates a fresh
output handle (`cameraThreadFaceOutput`). -/
def cameraThreadFaceOutput (s : RSState) : RSState :=
  if s.faceEnabled then
    let s2 := derefHandle s.pFace s
    { s2 with faceData := some s2.nextHandle, nextHandle := s2.nextHandle + 1 }
  else s

def cameraThreadInit (initStatus : Int) (s : RSState) : RSState :=
  let s1 := { s with currentFrame := 0,
                     fgFrame := { s.fgFrame with number := 0 },
                     midFrame := { s.midFrame with number := 0 },
                     bgFrame := { s.bgFrame with number := 0 },
                     status := initStatus }
  if initStatus < 0 then s1
  else cameraThreadFaceOutput s1

/-- The operations that can act on a `RealSenseImpl` instance: producer-side
loop iterations, the consumer-side swap, and the control-surface calls. -/
inductive Op where
  | iteration (inp : CameraInput)
  | acquire
  | threadInit (st : Int)
  | enableFeature (f : RealSenseFeature)
  | disableFeature (f : RealSenseFeature)
  | startCam
  | stopCam
  | scanStart
  | scanStop
  | scanReset
  | save (fmt : Nat) (filename : String)
  | setColorRes (res : FStreamResolution) (st : Int)
  | setDepthRes (res : FStreamResolution) (st : Int)
deriving DecidableEq

/-- Interpretation of one operation. -/
def step : Op → RSState → RSState
  | .iteration inp, s => cameraIteration inp s
  | .acquire, s => swapFrames s
  | .threadInit st, s => cameraThreadInit st s
  | .enableFeature f, s => enableRealSenseFeature f s
  | .disableFeature f, s => disableRealSenseFeature f s
  | .startCam, s => startCamera s
  | .stopCam, s => stopCamera s
  | .scanStart, s => startScanning s
  | .scanStop, s => stopScanning s
  | .scanReset, s => resetScanning s
  | .save fmt fn, s => saveScan fmt fn s
  | .setColorRes r st, s => setColorCameraResolution r st s
  | .setDepthRes r st, s => setDepthCameraResolution r st s

/-- Run a sequence of operations left to right. -/
def run (ops : List Op) (s : RSState) : RSState :=
  ops.foldl (fun t op => step op t) s

/-- Publish/acquire operations: a producer loop iteration or the
consumer-side `SwapFrames`. -/
def isPubAcq : Op → Bool
  | .iteration _ => true
  | .acquire => true
  | _ => false

/-- Whether an operation, taken in state `s`, processes a pending
reconstruct request (an iteration that acquires a frame while `SCAN_3D` is
enabled and a reconstruct is requested). -/
def processesReconstruct (op : Op) (s : RSState) : Bool :=
  match op with
  | .iteration inp => inp.acquireStatus == 0 && s.scan3DEnabled && s.reconstructEnabled
  | _ => false

/-- No operation along the trace processes a reconstruct request. -/
def noReconstructProcessed : List Op → RSState → Bool
  | [], _ => true
  | op :: rest, s => !processesReconstruct op s && noReconstructProcessed rest (step op s)

/-! ### The mesh loader `RealSenseImpl::LoadScan` (lines 482-522)

The loader reads a line-oriented `.obj`-style text file.  The C scanner
(`sscanf_s`) is an external library routine, so a file is modeled as the
list of its already-scanned lines: a line starting with `"v "` carries six
floats (idealized as rationals), a line starting with `'f'` carries the six
integers of a `v1//n1 v2//n2 v3//n3` record, and every other line is
ignored by the loader.  The `float` coordinates are idealized as rationals.
`ConvertRSVectorToUnreal` lives outside this repository's sources, so the
loader is parametric in that conversion. -/

/-- A 3-component vector of (idealized) floats. -/
abbrev FVec := ℚ × ℚ × ℚ

/-- One scanned line of a mesh file. -/
inductive MeshLine where
  | vert (x y z r g b : ℚ)
  | tri (v1 n1 v2 n2 v3 n3 : Int)
  | other
deriving DecidableEq

/-- The `(uint8)(c * 255)` cast of a color channel (truncating toward zero,
reduced modulo 256 as a machine byte). -/
def byteOfRat (q : ℚ) : Nat := (⌊q * 255⌋).toNat % 256

/-- The `Vertices` array as filled by the parse loop: for each `"v "` line,
`ConvertRSVectorToUnreal(FVector(x, y, z)) * 150`. -/
def loadVertices (conv : FVec → FVec) (ls : List MeshLine) : List FVec :=
  ls.filterMap fun l =>
    match l with
    | .vert x y z _ _ _ => some ((150 : ℚ) • conv (x, y, z))
    | _ => none

/-- The `Colors` array as filled by the parse loop. -/
def loadColors (ls : List MeshLine) : List (Nat × Nat × Nat) :=
  ls.filterMap fun l =>
    match l with
    | .vert _ _ _ r g b => some (byteOfRat r, byteOfRat g, byteOfRat b)
    | _ => none

/-- The `Triangles` array as filled by the parse loop: each `'f'` line
appends its three 1-based vertex indices minus one. -/
def loadTriangles (ls : List MeshLine) : List Int :=
  ls.flatMap fun l =>
    match l with
    | .tri v1 _ v2 _ v3 _ => [v1 - 1, v2 - 1, v3 - 1]
    | _ => []

/-- `MeshCenter` accumulation: `for (FVector Vert : Vertices) MeshCenter += Vert`
starting from the zero vector. -/
def sumVec (vs : List FVec) : FVec := vs.foldl (· + ·) 0

/-- `MeshCenter /= Vertices.Num()`: componentwise division by the vertex
count, i.e. scaling by its inverse. -/
def meshCenter (vs : List FVec) : FVec := ((vs.length : ℚ))⁻¹ • sumVec vs

/-- `RealSenseImpl::LoadScan`: the three output arrays are emptied first; if
the file cannot be opened (`none`) the call returns with them empty;
otherwise the lines are parsed and every vertex is shifted by the mesh
center. -/
def loadScan (conv : FVec → FVec) (file : Option (List MeshLine)) :
    List FVec × List Int × List (Nat × Nat × Nat) :=
  match file with
  | none => ([], [], [])
  | some ls =>
      let vertices := loadVertices conv ls
      let center := meshCenter vertices
      (vertices.map (fun v => v - center), loadTriangles ls, loadColors ls)

/-! ### Concrete instances used by witnesses and counterexamples -/

/-- 640 x 480 color resolution at 30 fps (Scenario A of the spec). -/
def res640 : FStreamResolution := { width := 640, height := 480, fps := 30 }

/-- An iteration input delivering a frame that carries a color payload. -/
def colorFrameInput : CameraInput :=
  { acquireStatus := 0, hasColorSample := true, hasDepthSample := false,
    previewImage := none, reconstructStatus := 0, faceCount := 0 }

/-- The state reached by enabling `CAMERA_STREAMING`, successfully
configuring the 640 x 480 color resolution and starting the camera thread. -/
def scenarioAState : RSState :=
  cameraThreadInit 0
    (setColorCameraResolution res640 0
      (enableRealSenseFeature .CAMERA_STREAMING initState))

/-- A two-triangle mesh file: four vertex records and two triangle records
(Scenario E of the spec). -/
def twoTriangleMesh : List MeshLine :=
  [ .vert 1 2 3 1 0 0,
    .vert 4 5 6 0 1 0,
    .vert 7 8 9 0 0 1,
    .vert 2 1 0 1 1 1,
    .tri 1 1 2 2 3 3,
    .tri 2 2 3 3 4 4 ]

/-- An iteration input whose frame acquisition succeeds and whose
`Reconstruct` call fails (Scenario D with a failing reconstruction). -/
def failedReconstructInput : CameraInput :=
  { acquireStatus := 0, hasColorSample := false, hasDepthSample := false,
    previewImage := none, reconstructStatus := -3, faceCount := 0 }

/-- The state reached by enabling `SCAN_3D` and requesting
`SaveScan(OBJ, "x.obj")`: a reconstruct request is pending. -/
def pendingReconstructState : RSState :=
  saveScan 0 "x.obj" (enableRealSenseFeature .SCAN_3D initState)

/-! ### Helper lemmas: bit arithmetic -/

theorem exists_testBit_of_ne_zero (n : Nat) (h : n ≠ 0) :
    ∃ k, n.testBit k = true := by
  by_contra hall
  push_neg at hall
  apply h
  apply Nat.eq_of_testBit_eq
  intro k
  simp only [Nat.zero_testBit]
  simpa using hall k

theorem land_lor_ne (x y b : Nat) (h : x &&& b ≠ 0) : (x ||| y) &&& b ≠ 0 := by
  obtain ⟨k, hk⟩ := exists_testBit_of_ne_zero (x &&& b) h
  rw [Nat.testBit_land] at hk
  rcases (by simpa using hk : Nat.testBit x k = true ∧ Nat.testBit b k = true)
    with ⟨h1, h2⟩
  intro hc
  have hz : Nat.testBit ((x ||| y) &&& b) k = false := by
    rw [hc]; exact Nat.zero_testBit k
  rw [Nat.testBit_land, Nat.testBit_lor] at hz
  simp [h1, h2] at hz

theorem land_self_lor (x b : Nat) (h : b ≠ 0) : (x ||| b) &&& b ≠ 0 := by
  obtain ⟨k, hk⟩ := exists_testBit_of_ne_zero b h
  intro hc
  have hz : Nat.testBit ((x ||| b) &&& b) k = false := by
    rw [hc]; exact Nat.zero_testBit k
  rw [Nat.testBit_land, Nat.testBit_lor] at hz
  simp [hk] at hz

/-! ### Helper lemmas: which fields each embedded operation preserves -/

theorem copyToBuffer_pres (b n : Nat) (s : RSState) :
    (copyToBuffer b n s).realSenseFeatureSet = s.realSenseFeatureSet ∧
    (copyToBuffer b n s).colorStreamingEnabled = s.colorStreamingEnabled ∧
    (copyToBuffer b n s).depthStreamingEnabled = s.depthStreamingEnabled ∧
    (copyToBuffer b n s).scan3DEnabled = s.scan3DEnabled ∧
    (copyToBuffer b n s).faceEnabled = s.faceEnabled ∧
    (copyToBuffer b n s).scanStarted = s.scanStarted ∧
    (copyToBuffer b n s).scanStopped = s.scanStopped ∧
    (copyToBuffer b n s).reconstructEnabled = s.reconstructEnabled ∧
    (copyToBuffer b n s).scanCompleted = s.scanCompleted ∧
    (copyToBuffer b n s).status = s.status ∧
    (copyToBuffer b n s).p3DScan = s.p3DScan ∧
    (copyToBuffer b n s).pFace = s.pFace ∧
    (copyToBuffer b n s).faceData = s.faceData ∧
    (copyToBuffer b n s).bgFrame = s.bgFrame ∧
    (copyToBuffer b n s).midFrame = s.midFrame ∧
    (copyToBuffer b n s).fgFrame = s.fgFrame := by
  unfold copyToBuffer
  split <;> simp

theorem derefHandle_pres (h : Option Nat) (s : RSState) :
    (derefHandle h s).realSenseFeatureSet = s.realSenseFeatureSet ∧
    (derefHandle h s).colorStreamingEnabled = s.colorStreamingEnabled ∧
    (derefHandle h s).depthStreamingEnabled = s.depthStreamingEnabled ∧
    (derefHandle h s).scan3DEnabled = s.scan3DEnabled ∧
    (derefHandle h s).faceEnabled = s.faceEnabled ∧
    (derefHandle h s).scanStarted = s.scanStarted ∧
    (derefHandle h s).scanStopped = s.scanStopped ∧
    (derefHandle h s).reconstructEnabled = s.reconstructEnabled ∧
    (derefHandle h s).scanCompleted = s.scanCompleted ∧
    (derefHandle h s).status = s.status ∧
    (derefHandle h s).p3DScan = s.p3DScan ∧
    (derefHandle h s).pFace = s.pFace ∧
    (derefHandle h s).faceData = s.faceData ∧
    (derefHandle h s).bgFrame = s.bgFrame ∧
    (derefHandle h s).midFrame = s.midFrame ∧
    (derefHandle h s).fgFrame = s.fgFrame := by
  rcases h with _ | i <;> simp [derefHandle] <;> split_ifs <;> simp

theorem releaseHandle_pres (h : Option Nat) (s : RSState) :
    (releaseHandle h s).realSenseFeatureSet = s.realSenseFeatureSet ∧
    (releaseHandle h s).colorStreamingEnabled = s.colorStreamingEnabled ∧
    (releaseHandle h s).depthStreamingEnabled = s.depthStreamingEnabled ∧
    (releaseHandle h s).scan3DEnabled = s.scan3DEnabled ∧
    (releaseHandle h s).faceEnabled = s.faceEnabled ∧
    (releaseHandle h s).scanStarted = s.scanStarted ∧
    (releaseHandle h s).scanStopped = s.scanStopped ∧
    (releaseHandle h s).reconstructEnabled = s.reconstructEnabled ∧
    (releaseHandle h s).scanCompleted = s.scanCompleted ∧
    (releaseHandle h s).status = s.status ∧
    (releaseHandle h s).p3DScan = s.p3DScan ∧
    (releaseHandle h s).pFace = s.pFace ∧
    (releaseHandle h s).faceData = s.faceData ∧
    (releaseHandle h s).bgFrame = s.bgFrame ∧
    (releaseHandle h s).midFrame = s.midFrame ∧
    (releaseHandle h s).fgFrame = s.fgFrame := by
  rcases h with _ | i <;> simp [releaseHandle] <;> split_ifs <;> simp

theorem updateScan3DImageSize_pres (w h : Nat) (s : RSState) :
    (updateScan3DImageSize w h s).realSenseFeatureSet = s.realSenseFeatureSet ∧
    (updateScan3DImageSize w h s).colorStreamingEnabled = s.colorStreamingEnabled ∧
    (updateScan3DImageSize w h s).depthStreamingEnabled = s.depthStreamingEnabled ∧
    (updateScan3DImageSize w h s).scan3DEnabled = s.scan3DEnabled ∧
    (updateScan3DImageSize w h s).faceEnabled = s.faceEnabled ∧
    (updateScan3DImageSize w h s).scanStarted = s.scanStarted ∧
    (updateScan3DImageSize w h s).scanStopped = s.scanStopped ∧
    (updateScan3DImageSize w h s).reconstructEnabled = s.reconstructEnabled ∧
    (updateScan3DImageSize w h s).scanCompleted = s.scanCompleted ∧
    (updateScan3DImageSize w h s).status = s.status ∧
    (updateScan3DImageSize w h s).p3DScan = s.p3DScan ∧
    (updateScan3DImageSize w h s).pFace = s.pFace ∧
    (updateScan3DImageSize w h s).faceData = s.faceData ∧
    (updateScan3DImageSize w h s).bgFrame.number = s.bgFrame.number ∧
    (updateScan3DImageSize w h s).midFrame.number = s.midFrame.number ∧
    (updateScan3DImageSize w h s).fgFrame.number = s.fgFrame.number := by
  unfold updateScan3DImageSize
  split <;> simp

theorem frameNumberStage_pres (s : RSState) :
    (frameNumberStage s).realSenseFeatureSet = s.realSenseFeatureSet ∧
    (frameNumberStage s).colorStreamingEnabled = s.colorStreamingEnabled ∧
    (frameNumberStage s).depthStreamingEnabled = s.depthStreamingEnabled ∧
    (frameNumberStage s).scan3DEnabled = s.scan3DEnabled ∧
    (frameNumberStage s).faceEnabled = s.faceEnabled ∧
    (frameNumberStage s).scanStarted = s.scanStarted ∧
    (frameNumberStage s).scanStopped = s.scanStopped ∧
    (frameNumberStage s).reconstructEnabled = s.reconstructEnabled ∧
    (frameNumberStage s).scanCompleted = s.scanCompleted ∧
    (frameNumberStage s).status = s.status ∧
    (frameNumberStage s).p3DScan = s.p3DScan ∧
    (frameNumberStage s).pFace = s.pFace ∧
    (frameNumberStage s).faceData = s.faceData ∧
    (frameNumberStage s).midFrame = s.midFrame ∧
    (frameNumberStage s).fgFrame = s.fgFrame := by
  unfold frameNumberStage
  simp

theorem colorStage_pres (inp : CameraInput) (s : RSState) :
    (colorStage inp s).realSenseFeatureSet = s.realSenseFeatureSet ∧
    (colorStage inp s).colorStreamingEnabled = s.colorStreamingEnabled ∧
    (colorStage inp s).depthStreamingEnabled = s.depthStreamingEnabled ∧
    (colorStage inp s).scan3DEnabled = s.scan3DEnabled ∧
    (colorStage inp s).faceEnabled = s.faceEnabled ∧
    (colorStage inp s).scanStarted = s.scanStarted ∧
    (colorStage inp s).scanStopped = s.scanStopped ∧
    (colorStage inp s).reconstructEnabled = s.reconstructEnabled ∧
    (colorStage inp s).scanCompleted = s.scanCompleted ∧
    (colorStage inp s).status = s.status ∧
    (colorStage inp s).p3DScan = s.p3DScan ∧
    (colorStage inp s).pFace = s.pFace ∧
    (colorStage inp s).faceData = s.faceData ∧
    (colorStage inp s).midFrame = s.midFrame ∧
    (colorStage inp s).fgFrame = s.fgFrame := by
  unfold colorStage
  split <;> simp [copyToBuffer_pres]

theorem depthStage_pres (inp : CameraInput) (s : RSState) :
    (depthStage inp s).realSenseFeatureSet = s.realSenseFeatureSet ∧
    (depthStage inp s).colorStreamingEnabled = s.colorStreamingEnabled ∧
    (depthStage inp s).depthStreamingEnabled = s.depthStreamingEnabled ∧
    (depthStage inp s).scan3DEnabled = s.scan3DEnabled ∧
    (depthStage inp s).faceEnabled = s.faceEnabled ∧
    (depthStage inp s).scanStarted = s.scanStarted ∧
    (depthStage inp s).scanStopped = s.scanStopped ∧
    (depthStage inp s).reconstructEnabled = s.reconstructEnabled ∧
    (depthStage inp s).scanCompleted = s.scanCompleted ∧
    (depthStage inp s).status = s.status ∧
    (depthStage inp s).p3DScan = s.p3DScan ∧
    (depthStage inp s).pFace = s.pFace ∧
    (depthStage inp s).faceData = s.faceData ∧
    (depthStage inp s).bgFrame = s.bgFrame ∧
    (depthStage inp s).midFrame = s.midFrame ∧
    (depthStage inp s).fgFrame = s.fgFrame := by
  unfold depthStage
  split <;> simp [copyToBuffer_pres]

theorem scanStartStep_pres (s : RSState) :
    (scanStartStep s).realSenseFeatureSet = s.realSenseFeatureSet ∧
    (scanStartStep s).colorStreamingEnabled = s.colorStreamingEnabled ∧
    (scanStartStep s).depthStreamingEnabled = s.depthStreamingEnabled ∧
    (scanStartStep s).scan3DEnabled = s.scan3DEnabled ∧
    (scanStartStep s).faceEnabled = s.faceEnabled ∧
    (scanStartStep s).scanStopped = s.scanStopped ∧
    (scanStartStep s).reconstructEnabled = s.reconstructEnabled ∧
    (scanStartStep s).scanCompleted = s.scanCompleted ∧
    (scanStartStep s).status = s.status ∧
    (scanStartStep s).p3DScan = s.p3DScan ∧
    (scanStartStep s).pFace = s.pFace ∧
    (scanStartStep s).faceData = s.faceData ∧
    (scanStartStep s).bgFrame = s.bgFrame ∧
    (scanStartStep s).midFrame = s.midFrame ∧
    (scanStartStep s).fgFrame = s.fgFrame := by
  unfold scanStartStep
  split <;> simp [derefHandle_pres]

theorem scanStopStep_pres (s : RSState) :
    (scanStopStep s).realSenseFeatureSet = s.realSenseFeatureSet ∧
    (scanStopStep s).colorStreamingEnabled = s.colorStreamingEnabled ∧
    (scanStopStep s).depthStreamingEnabled = s.depthStreamingEnabled ∧
    (scanStopStep s).scan3DEnabled = s.scan3DEnabled ∧
    (scanStopStep s).faceEnabled = s.faceEnabled ∧
    (scanStopStep s).scanStarted = s.scanStarted ∧
    (scanStopStep s).reconstructEnabled = s.reconstructEnabled ∧
    (scanStopStep s).scanCompleted = s.scanCompleted ∧
    (scanStopStep s).status = s.status ∧
    (scanStopStep s).p3DScan = s.p3DScan ∧
    (scanStopStep s).pFace = s.pFace ∧
    (scanStopStep s).faceData = s.faceData ∧
    (scanStopStep s).bgFrame = s.bgFrame ∧
    (scanStopStep s).midFrame = s.midFrame ∧
    (scanStopStep s).fgFrame = s.fgFrame := by
  unfold scanStopStep
  split <;> simp [derefHandle_pres]

theorem previewStep_pres (inp : CameraInput) (s : RSState) :
    (previewStep inp s).realSenseFeatureSet = s.realSenseFeatureSet ∧
    (previewStep inp s).colorStreamingEnabled = s.colorStreamingEnabled ∧
    (previewStep inp s).depthStreamingEnabled = s.depthStreamingEnabled ∧
    (previewStep inp s).scan3DEnabled = s.scan3DEnabled ∧
    (previewStep inp s).faceEnabled = s.faceEnabled ∧
    (previewStep inp s).scanStarted = s.scanStarted ∧
    (previewStep inp s).scanStopped = s.scanStopped ∧
    (previewStep inp s).reconstructEnabled = s.reconstructEnabled ∧
    (previewStep inp s).scanCompleted = s.scanCompleted ∧
    (previewStep inp s).status = s.status ∧
    (previewStep inp s).p3DScan = s.p3DScan ∧
    (previewStep inp s).pFace = s.pFace ∧
    (previewStep inp s).faceData = s.faceData ∧
    (previewStep inp s).bgFrame.number = s.bgFrame.number ∧
    (previewStep inp s).midFrame.number = s.midFrame.number ∧
    (previewStep inp s).fgFrame.number = s.fgFrame.number := by
  unfold previewStep
  split <;> simp [copyToBuffer_pres, updateScan3DImageSize_pres, derefHandle_pres]

theorem reconstructStep_pres (inp : CameraInput) (s : RSState) :
    (reconstructStep inp s).realSenseFeatureSet = s.realSenseFeatureSet ∧
    (reconstructStep inp s).colorStreamingEnabled = s.colorStreamingEnabled ∧
    (reconstructStep inp s).depthStreamingEnabled = s.depthStreamingEnabled ∧
    (reconstructStep inp s).scan3DEnabled = s.scan3DEnabled ∧
    (reconstructStep inp s).faceEnabled = s.faceEnabled ∧
    (reconstructStep inp s).scanStarted = s.scanStarted ∧
    (reconstructStep inp s).scanStopped = s.scanStopped ∧
    (reconstructStep inp s).p3DScan = s.p3DScan ∧
    (reconstructStep inp s).pFace = s.pFace ∧
    (reconstructStep inp s).faceData = s.faceData ∧
    (reconstructStep inp s).bgFrame = s.bgFrame ∧
    (reconstructStep inp s).midFrame = s.midFrame ∧
    (reconstructStep inp s).fgFrame = s.fgFrame := by
  unfold reconstructStep
  split <;> simp [derefHandle_pres]

theorem reconstructStep_of_not_pending (inp : CameraInput) (s : RSState)
    (h : s.reconstructEnabled = false) : reconstructStep inp s = s := by
  unfold reconstructStep
  simp [h]

theorem reconstructStep_of_pending (inp : CameraInput) (s : RSState)
    (h : s.reconstructEnabled = true) :
    (reconstructStep inp s).reconstructEnabled = false ∧
    (reconstructStep inp s).scanCompleted = true ∧
    (reconstructStep inp s).status = inp.reconstructStatus := by
  unfold reconstructStep
  simp [h]

theorem scanStage_pres (inp : CameraInput) (s : RSState) :
    (scanStage inp s).realSenseFeatureSet = s.realSenseFeatureSet ∧
    (scanStage inp s).colorStreamingEnabled = s.colorStreamingEnabled ∧
    (scanStage inp s).depthStreamingEnabled = s.depthStreamingEnabled ∧
    (scanStage inp s).scan3DEnabled = s.scan3DEnabled ∧
    (scanStage inp s).faceEnabled = s.faceEnabled ∧
    (scanStage inp s).p3DScan = s.p3DScan ∧
    (scanStage inp s).pFace = s.pFace ∧
    (scanStage inp s).faceData = s.faceData ∧
    (scanStage inp s).bgFrame.number = s.bgFrame.number ∧
    (scanStage inp s).midFrame.number = s.midFrame.number ∧
    (scanStage inp s).fgFrame.number = s.fgFrame.number := by
  unfold scanStage
  split
  · simp [reconstructStep_pres, previewStep_pres, scanStopStep_pres, scanStartStep_pres]
  · simp

theorem scanStage_scanCompleted (inp : CameraInput) (s : RSState)
    (h : s.scan3DEnabled = false ∨ s.reconstructEnabled = false) :
    (scanStage inp s).scanCompleted = s.scanCompleted := by
  unfold scanStage
  rcases h with h | h
  · simp [h]
  · split
    · rw [reconstructStep_of_not_pending]
      · simp [previewStep_pres, scanStopStep_pres, scanStartStep_pres]
      · simp [previewStep_pres, scanStopStep_pres, scanStartStep_pres, h]
    · rfl

theorem faceStage_pres (inp : CameraInput) (s : RSState) :
    (faceStage inp s).realSenseFeatureSet = s.realSenseFeatureSet ∧
    (faceStage inp s).colorStreamingEnabled = s.colorStreamingEnabled ∧
    (faceStage inp s).depthStreamingEnabled = s.depthStreamingEnabled ∧
    (faceStage inp s).scan3DEnabled = s.scan3DEnabled ∧
    (faceStage inp s).faceEnabled = s.faceEnabled ∧
    (faceStage inp s).scanStarted = s.scanStarted ∧
    (faceStage inp s).scanStopped = s.scanStopped ∧
    (faceStage inp s).reconstructEnabled = s.reconstructEnabled ∧
    (faceStage inp s).scanCompleted = s.scanCompleted ∧
    (faceStage inp s).status = s.status ∧
    (faceStage inp s).p3DScan = s.p3DScan ∧
    (faceStage inp s).pFace = s.pFace ∧
    (faceStage inp s).faceData = s.faceData ∧
    (faceStage inp s).bgFrame.number = s.bgFrame.number ∧
    (faceStage inp s).midFrame = s.midFrame ∧
    (faceStage inp s).fgFrame = s.fgFrame := by
  unfold faceStage
  split
  · split <;> simp [derefHandle_pres]
  · simp

theorem publishStage_pres (s : RSState) :
    (publishStage s).realSenseFeatureSet = s.realSenseFeatureSet ∧
    (publishStage s).colorStreamingEnabled = s.colorStreamingEnabled ∧
    (publishStage s).depthStreamingEnabled = s.depthStreamingEnabled ∧
    (publishStage s).scan3DEnabled = s.scan3DEnabled ∧
    (publishStage s).faceEnabled = s.faceEnabled ∧
    (publishStage s).scanStarted = s.scanStarted ∧
    (publishStage s).scanStopped = s.scanStopped ∧
    (publishStage s).reconstructEnabled = s.reconstructEnabled ∧
    (publishStage s).scanCompleted = s.scanCompleted ∧
    (publishStage s).status = s.status ∧
    (publishStage s).p3DScan = s.p3DScan ∧
    (publishStage s).pFace = s.pFace ∧
    (publishStage s).faceData = s.faceData ∧
    (publishStage s).bgFrame = s.midFrame ∧
    (publishStage s).midFrame = s.bgFrame ∧
    (publishStage s).fgFrame = s.fgFrame := by
  unfold publishStage
  simp

theorem swapFrames_pres (s : RSState) :
    (swapFrames s).realSenseFeatureSet = s.realSenseFeatureSet ∧
    (swapFrames s).colorStreamingEnabled = s.colorStreamingEnabled ∧
    (swapFrames s).depthStreamingEnabled = s.depthStreamingEnabled ∧
    (swapFrames s).scan3DEnabled = s.scan3DEnabled ∧
    (swapFrames s).faceEnabled = s.faceEnabled ∧
    (swapFrames s).scanStarted = s.scanStarted ∧
    (swapFrames s).scanStopped = s.scanStopped ∧
    (swapFrames s).reconstructEnabled = s.reconstructEnabled ∧
    (swapFrames s).scanCompleted = s.scanCompleted ∧
    (swapFrames s).status = s.status ∧
    (swapFrames s).bgFrame = s.bgFrame := by
  unfold swapFrames
  split <;> simp

theorem swapFrames_fgNumber_le (s : RSState) :
    s.fgFrame.number ≤ (swapFrames s).fgFrame.number := by
  unfold swapFrames
  split
  · rename_i hlt
    simpa using Nat.le_of_lt hlt
  · exact Nat.le_refl _

theorem cameraIteration_fgNumber (inp : CameraInput) (s : RSState) :
    (cameraIteration inp s).fgFrame.number = s.fgFrame.number := by
  unfold cameraIteration
  split
  · simp
  · simp [publishStage_pres, faceStage_pres, scanStage_pres, depthStage_pres,
      colorStage_pres, frameNumberStage_pres]

theorem cameraIteration_featureSet (inp : CameraInput) (s : RSState) :
    (cameraIteration inp s).realSenseFeatureSet = s.realSenseFeatureSet := by
  unfold cameraIteration
  split
  · simp
  · simp [publishStage_pres, faceStage_pres, scanStage_pres, depthStage_pres,
      colorStage_pres, frameNumberStage_pres]

theorem cameraIteration_scanCompleted (inp : CameraInput) (s : RSState)
    (h : processesReconstruct (.iteration inp) s = false) :
    (cameraIteration inp s).scanCompleted = s.scanCompleted := by
  unfold cameraIteration
  split
  · simp
  · rename_i hacq
    have hacq0 : inp.acquireStatus = 0 := by
      by_contra hne
      exact hacq (by simpa using hne)
    have hor : s.scan3DEnabled = false ∨ s.reconstructEnabled = false := by
      cases hb3 : s.scan3DEnabled with
      | false => exact Or.inl rfl
      | true =>
          cases hb4 : s.reconstructEnabled with
          | false => exact Or.inr rfl
          | true =>
              exfalso
              have hcontra : processesReconstruct (.iteration inp) s = true := by
                simp [processesReconstruct, hacq0, hb3, hb4]
              rw [h] at hcontra
              exact Bool.false_ne_true hcontra
    rw [(publishStage_pres _).2.2.2.2.2.2.2.2.1,
        (faceStage_pres inp _).2.2.2.2.2.2.2.2.1]
    rw [scanStage_scanCompleted]
    · simp [depthStage_pres, colorStage_pres, frameNumberStage_pres]
    · rcases hor with h5 | h5
      · exact Or.inl (by simp [depthStage_pres, colorStage_pres, frameNumberStage_pres, h5])
      · exact Or.inr (by simp [depthStage_pres, colorStage_pres, frameNumberStage_pres, h5])

theorem cameraThreadInit_pres (st : Int) (s : RSState) :
    (cameraThreadInit st s).realSenseFeatureSet = s.realSenseFeatureSet ∧
    (cameraThreadInit st s).colorStreamingEnabled = s.colorStreamingEnabled ∧
    (cameraThreadInit st s).depthStreamingEnabled = s.depthStreamingEnabled ∧
    (cameraThreadInit st s).scan3DEnabled = s.scan3DEnabled ∧
    (cameraThreadInit st s).faceEnabled = s.faceEnabled ∧
    (cameraThreadInit st s).scanStarted = s.scanStarted ∧
    (cameraThreadInit st s).scanStopped = s.scanStopped ∧
    (cameraThreadInit st s).reconstructEnabled = s.reconstructEnabled ∧
    (cameraThreadInit st s).scanCompleted = s.scanCompleted := by
  have hface : ∀ t : RSState,
      (cameraThreadFaceOutput t).realSenseFeatureSet = t.realSenseFeatureSet ∧
      (cameraThreadFaceOutput t).colorStreamingEnabled = t.colorStreamingEnabled ∧
      (cameraThreadFaceOutput t).depthStreamingEnabled = t.depthStreamingEnabled ∧
      (cameraThreadFaceOutput t).scan3DEnabled = t.scan3DEnabled ∧
      (cameraThreadFaceOutput t).faceEnabled = t.faceEnabled ∧
      (cameraThreadFaceOutput t).scanStarted = t.scanStarted ∧
      (cameraThreadFaceOutput t).scanStopped = t.scanStopped ∧
      (cameraThreadFaceOutput t).reconstructEnabled = t.reconstructEnabled ∧
      (cameraThreadFaceOutput t).scanCompleted = t.scanCompleted := by
    intro t
    unfold cameraThreadFaceOutput
    split <;> simp [derefHandle_pres]
  unfold cameraThreadInit
  split
  · simp
  · simp [hface]

theorem enableRealSenseFeature_featureSet (f : RealSenseFeature) (s : RSState) :
    (enableRealSenseFeature f s).realSenseFeatureSet =
      s.realSenseFeatureSet ||| featureBit f := by
  cases f <;> simp [enableRealSenseFeature]

theorem enableRealSenseFeature_scanCompleted (f : RealSenseFeature) (s : RSState) :
    (enableRealSenseFeature f s).scanCompleted = s.scanCompleted := by
  cases f <;> simp [enableRealSenseFeature]

theorem disableRealSenseFeature_featureSet (f : RealSenseFeature) (s : RSState) :
    (disableRealSenseFeature f s).realSenseFeatureSet = s.realSenseFeatureSet := by
  cases f <;> simp [disableRealSenseFeature, releaseHandle_pres]

theorem disableRealSenseFeature_scanCompleted (f : RealSenseFeature) (s : RSState) :
    (disableRealSenseFeature f s).scanCompleted = s.scanCompleted := by
  cases f <;> simp [disableRealSenseFeature, releaseHandle_pres]

theorem enableRealSenseFeatures_keepBit (m b : Nat) (s : RSState)
    (h : s.realSenseFeatureSet &&& b ≠ 0) :
    (enableRealSenseFeatures m s).realSenseFeatureSet &&& b ≠ 0 := by
  unfold enableRealSenseFeatures
  split_ifs <;>
    simp only [enableRealSenseFeature_featureSet] <;>
    repeat (first | exact h | apply land_lor_ne)

theorem enableRealSenseFeatures_scanCompleted (m : Nat) (s : RSState) :
    (enableRealSenseFeatures m s).scanCompleted = s.scanCompleted := by
  unfold enableRealSenseFeatures
  split_ifs <;> simp [enableRealSenseFeature_scanCompleted]

theorem disableRealSenseFeatures_featureSet (m : Nat) (s : RSState) :
    (disableRealSenseFeatures m s).realSenseFeatureSet = s.realSenseFeatureSet := by
  unfold disableRealSenseFeatures
  split_ifs <;> simp [disableRealSenseFeature_featureSet]

theorem disableRealSenseFeatures_scanCompleted (m : Nat) (s : RSState) :
    (disableRealSenseFeatures m s).scanCompleted = s.scanCompleted := by
  unfold disableRealSenseFeatures
  split_ifs <;> simp [disableRealSenseFeature_scanCompleted]

theorem stopCamera_keepBit (b : Nat) (s : RSState)
    (h : s.realSenseFeatureSet &&& b ≠ 0) :
    (stopCamera s).realSenseFeatureSet &&& b ≠ 0 := by
  unfold stopCamera
  apply enableRealSenseFeatures_keepBit
  rw [disableRealSenseFeatures_featureSet]
  split <;> simpa using h

theorem stopCamera_scanCompleted (s : RSState) :
    (stopCamera s).scanCompleted = s.scanCompleted := by
  unfold stopCamera
  rw [enableRealSenseFeatures_scanCompleted, disableRealSenseFeatures_scanCompleted]
  split <;> simp

theorem step_scanCompleted_false (op : Op) (s : RSState)
    (hc : s.scanCompleted = false) (hp : processesReconstruct op s = false) :
    (step op s).scanCompleted = false := by
  cases op with
  | iteration inp => rw [step, cameraIteration_scanCompleted inp s hp]; exact hc
  | acquire => rw [step, (swapFrames_pres s).2.2.2.2.2.2.2.2.1]; exact hc
  | threadInit st => rw [step, (cameraThreadInit_pres st s).2.2.2.2.2.2.2.2]; exact hc
  | enableFeature f => rw [step, enableRealSenseFeature_scanCompleted]; exact hc
  | disableFeature f => rw [step, disableRealSenseFeature_scanCompleted]; exact hc
  | startCam => rw [step]; unfold startCamera; split <;> simpa using hc
  | stopCam => rw [step, stopCamera_scanCompleted]; exact hc
  | scanStart => simp [step, startScanning]
  | scanStop => simp [step, stopScanning]; exact hc
  | scanReset => simp [step, resetScanning, derefHandle_pres]; exact hc
  | save fmt fn => simp [step, saveScan]; exact hc
  | setColorRes r st =>
      rw [step]; unfold setColorCameraResolution
      split <;> simpa using hc
  | setDepthRes r st =>
      rw [step]; unfold setDepthCameraResolution
      split <;> simpa using hc

theorem step_keepBit (op : Op) (b : Nat) (s : RSState)
    (h : s.realSenseFeatureSet &&& b ≠ 0) :
    (step op s).realSenseFeatureSet &&& b ≠ 0 := by
  cases op with
  | iteration inp => rw [step, cameraIteration_featureSet]; exact h
  | acquire => rw [step, (swapFrames_pres s).1]; exact h
  | threadInit st => rw [step, (cameraThreadInit_pres st s).1]; exact h
  | enableFeature f =>
      rw [step, enableRealSenseFeature_featureSet]
      exact land_lor_ne _ _ _ h
  | disableFeature f => rw [step, disableRealSenseFeature_featureSet]; exact h
  | startCam => rw [step]; unfold startCamera; split <;> simpa using h
  | stopCam => rw [step]; exact stopCamera_keepBit b s h
  | scanStart => simpa [step, startScanning] using h
  | scanStop => simpa [step, stopScanning] using h
  | scanReset => simpa [step, resetScanning, derefHandle_pres] using h
  | save fmt fn => simpa [step, saveScan] using h
  | setColorRes r st =>
      rw [step]; unfold setColorCameraResolution
      split <;> simpa using h
  | setDepthRes r st =>
      rw [step]; unfold setDepthCameraResolution
      split <;> simpa using h

theorem step_fgNumber_le (op : Op) (s : RSState) (h : isPubAcq op = true) :
    s.fgFrame.number ≤ (step op s).fgFrame.number := by
  cases op with
  | iteration inp => rw [step, cameraIteration_fgNumber]
  | acquire => exact swapFrames_fgNumber_le s
  | _ => simp [isPubAcq] at h

/-! ### Helper lemmas: vector sums for the mesh loader -/

theorem foldl_add_shift (vs : List FVec) (a : FVec) :
    vs.foldl (· + ·) a = a + vs.foldl (· + ·) 0 := by
  induction vs generalizing a with
  | nil => simp
  | cons v t ih =>
      simp only [List.foldl_cons]
      rw [ih (a + v), ih (0 + v)]
      abel

theorem sumVec_cons (v : FVec) (vs : List FVec) :
    sumVec (v :: vs) = v + sumVec vs := by
  unfold sumVec
  simp only [List.foldl_cons]
  rw [foldl_add_shift]
  simp

theorem sumVec_map_sub (c : FVec) (vs : List FVec) :
    sumVec (vs.map (fun v => v - c)) = sumVec vs - (vs.length : ℚ) • c := by
  induction vs with
  | nil => simp [sumVec]
  | cons v t ih =>
      simp only [List.map_cons, sumVec_cons, ih, List.length_cons]
      have hcast : ((t.length + 1 : ℕ) : ℚ) = (t.length : ℚ) + 1 := by push_cast; ring
      rw [hcast, add_smul, one_smul]
      abel

theorem scanStage_pending (inp : CameraInput) (t : RSState)
    (hscan : t.scan3DEnabled = true) (hrec : t.reconstructEnabled = true) :
    (scanStage inp t).reconstructEnabled = false ∧
    (scanStage inp t).scanCompleted = true ∧
    (scanStage inp t).status = inp.reconstructStatus := by
  unfold scanStage
  rw [if_pos hscan]
  exact reconstructStep_of_pending inp _
    (by simp [previewStep_pres, scanStopStep_pres, scanStartStep_pres, hrec])

/-! ### The claims -/

/-- C1: Forward-only delivery.  The consumer-side `SwapFrames` exchanges mid
and foreground only when the mid frame's number is strictly greater than the
foreground frame's, so along every sequence of publish (loop iteration) and
acquire (`SwapFrames`) operations the foreground frame's sequence number is
non-decreasing. -/
theorem forward_only_delivery (ops : List Op) (s : RSState)
    (h : ∀ op ∈ ops, isPubAcq op = true) :
    s.fgFrame.number ≤ (run ops s).fgFrame.number := by
  induction ops generalizing s with
  | nil => simp [run]
  | cons op rest ih =>
      have h1 : isPubAcq op = true := h op (List.mem_cons_self op rest)
      have h2 : ∀ o ∈ rest, isPubAcq o = true :=
        fun o ho => h o (List.mem_cons_of_mem op ho)
      have hrun : run (op :: rest) s = run rest (step op s) := rfl
      rw [hrun]
      exact Nat.le_trans (step_fgNumber_le op s h1) (ih (step op s) h2)

/-- Witness for C1 on a concrete publish/acquire trace from the initial
state. -/
theorem forward_only_delivery_witness :
    (∀ op ∈ [Op.iteration colorFrameInput, Op.acquire], isPubAcq op = true) ∧
    initState.fgFrame.number ≤
      (run [Op.iteration colorFrameInput, Op.acquire] initState).fgFrame.number :=
  ⟨by decide,
    forward_only_delivery [Op.iteration colorFrameInput, Op.acquire] initState (by decide)⟩

/-- C2: evaluation of the code at the failing input.  After
`CAMERA_STREAMING` is enabled at a successfully configured 640x480 color
resolution (the three color buffers hold `640*480*4` bytes), the first
processed frame carrying a color payload is published with a `colorImage`
of length 0, not `640*480*4`: line 157 clears the buffer (size 0)
immediately before the external copy writes `640*480*4` bytes through its
`data()` pointer, past the buffer's current size. -/
theorem color_frame_published_with_cleared_buffer :
    scenarioAState.colorStreamingEnabled = true ∧
    scenarioAState.colorResolution = res640 ∧
    scenarioAState.bgFrame.colorImage = 640 * 480 * 4 ∧
    (cameraIteration colorFrameInput scenarioAState).midFrame.colorImage = 0 ∧
    (cameraIteration colorFrameInput scenarioAState).midFrame.colorImage ≠
      640 * 480 * 4 ∧
    (cameraIteration colorFrameInput scenarioAState).oobWrite = true := by
  decide

/-- C3: evaluation of the code at the failing input.  On a fresh instance
the face configuration and output handles are null, and
`DisableRealSenseFeature(HEAD_TRACKING)` calls `Release()` through them
with no null check (lines 304-306), so it faults rather than being a
guarded no-op. -/
theorem disable_head_tracking_never_enabled_faults :
    initState.faceConfig = none ∧
    initState.faceData = none ∧
    initState.fault = false ∧
    (disableRealSenseFeature .HEAD_TRACKING initState).fault = true := by
  decide

/-- C4 (amended): enable/disable are idempotent for `CAMERA_STREAMING` and
`SCAN_3D` — calling either operation twice in a row yields the same state
as calling it once.  For `HEAD_TRACKING` idempotence fails: enabling twice
allocates a second active-configuration handle and disabling twice releases
the face handles twice (see the counterexample). -/
theorem enable_disable_idempotent_for_streaming_and_scan (s : RSState) :
    enableRealSenseFeature .CAMERA_STREAMING
        (enableRealSenseFeature .CAMERA_STREAMING s) =
      enableRealSenseFeature .CAMERA_STREAMING s ∧
    disableRealSenseFeature .CAMERA_STREAMING
        (disableRealSenseFeature .CAMERA_STREAMING s) =
      disableRealSenseFeature .CAMERA_STREAMING s ∧
    enableRealSenseFeature .SCAN_3D (enableRealSenseFeature .SCAN_3D s) =
      enableRealSenseFeature .SCAN_3D s ∧
    disableRealSenseFeature .SCAN_3D (disableRealSenseFeature .SCAN_3D s) =
      disableRealSenseFeature .SCAN_3D s := by
  refine ⟨?_, ?_, ?_, ?_⟩ <;>
    simp [enableRealSenseFeature, disableRealSenseFeature, featureBit,
      Nat.lor_assoc, Nat.or_self]

/-- C4 counterexample: starting from a state with head tracking enabled and
its output handle created (camera thread started), calling
`DisableRealSenseFeature(HEAD_TRACKING)` twice does not yield the same
state as calling it once — the second call releases the already released
face handles (a double release, recorded as a fault). -/
theorem disable_head_tracking_not_idempotent :
    disableRealSenseFeature .HEAD_TRACKING
        (disableRealSenseFeature .HEAD_TRACKING
          (cameraThreadInit 0 (enableRealSenseFeature .HEAD_TRACKING initState))) ≠
      disableRealSenseFeature .HEAD_TRACKING
        (cameraThreadInit 0 (enableRealSenseFeature .HEAD_TRACKING initState)) := by
  decide

/-- C5: when a loop iteration that acquires a frame processes a pending
reconstruct request (`SCAN_3D` enabled, `reconstructEnabled` set), the
iteration invokes reconstruction (recording its status), clears
`reconstructEnabled` and sets `scanCompleted` to true — regardless of the
value of the reconstruction status, which is universally quantified here. -/
theorem pending_reconstruct_completion (inp : CameraInput) (s : RSState)
    (hacq : inp.acquireStatus = 0) (hscan : s.scan3DEnabled = true)
    (hrec : s.reconstructEnabled = true) :
    (cameraIteration inp s).reconstructEnabled = false ∧
    (cameraIteration inp s).scanCompleted = true ∧
    (cameraIteration inp s).status = inp.reconstructStatus := by
  have hiter : cameraIteration inp s =
      publishStage (faceStage inp (scanStage inp (depthStage inp
        (colorStage inp (frameNumberStage { s with status := inp.acquireStatus }))))) := by
    unfold cameraIteration
    simp [hacq]
  have h2 := scanStage_pending inp
    (depthStage inp (colorStage inp
      (frameNumberStage { s with status := inp.acquireStatus })))
    (by simp [depthStage_pres, colorStage_pres, frameNumberStage_pres, hscan])
    (by simp [depthStage_pres, colorStage_pres, frameNumberStage_pres, hrec])
  rw [hiter]
  refine ⟨?_, ?_, ?_⟩ <;>
    simp [publishStage_pres, faceStage_pres, h2.1, h2.2.1, h2.2.2]

/-- Witness for C5: a pending reconstruct request processed with a failing
reconstruction status still sets `scanCompleted`. -/
theorem pending_reconstruct_completion_witness :
    failedReconstructInput.acquireStatus = 0 ∧
    pendingReconstructState.scan3DEnabled = true ∧
    pendingReconstructState.reconstructEnabled = true ∧
    failedReconstructInput.reconstructStatus = -3 ∧
    (cameraIteration failedReconstructInput pendingReconstructState).scanCompleted = true :=
  ⟨by decide, by decide, by decide, by decide,
    (pending_reconstruct_completion failedReconstructInput pendingReconstructState
      (by decide) (by decide) (by decide)).2.1⟩

/-- C6 (amended): the resolution setters resize the color/depth buffers of
all three ring frames exactly when the stream-enable call succeeds; on a
failing status the buffers of all three frames are left at their previous
size.  However the failing call does not leave the whole state unchanged:
the recorded `colorResolution`/`depthResolution` and the `status` member
are updated to the requested values even on failure (see the
counterexample). -/
theorem resize_buffers_only_on_success (res : FStreamResolution) (st : Int)
    (s : RSState) (h : st ≠ 0) :
    (setColorCameraResolution res st s).bgFrame.colorImage = s.bgFrame.colorImage ∧
    (setColorCameraResolution res st s).midFrame.colorImage = s.midFrame.colorImage ∧
    (setColorCameraResolution res st s).fgFrame.colorImage = s.fgFrame.colorImage ∧
    (setDepthCameraResolution res st s).bgFrame.depthImage = s.bgFrame.depthImage ∧
    (setDepthCameraResolution res st s).midFrame.depthImage = s.midFrame.depthImage ∧
    (setDepthCameraResolution res st s).fgFrame.depthImage = s.fgFrame.depthImage ∧
    (setColorCameraResolution res 0 s).bgFrame.colorImage = res.width * res.height * 4 ∧
    (setColorCameraResolution res 0 s).midFrame.colorImage = res.width * res.height * 4 ∧
    (setColorCameraResolution res 0 s).fgFrame.colorImage = res.width * res.height * 4 ∧
    (setDepthCameraResolution res 0 s).bgFrame.depthImage = res.width * res.height ∧
    (setColorCameraResolution res st s).colorResolution = res ∧
    (setColorCameraResolution res st s).status = st := by
  unfold setColorCameraResolution setDepthCameraResolution
  simp [h]

/-- Witness for C6 at a concrete failing status. -/
theorem resize_buffers_only_on_success_witness :
    (-1 : Int) ≠ 0 ∧
    (setColorCameraResolution res640 (-1) initState).bgFrame.colorImage =
      initState.bgFrame.colorImage :=
  ⟨by decide, (resize_buffers_only_on_success res640 (-1) initState (by decide)).1⟩

/-- C6 counterexample: a failing `SetColorCameraResolution` call leaves the
buffers at their previous size but does not leave the state unchanged — the
recorded color resolution is overwritten with the requested (unconfigured)
value. -/
theorem failed_stream_config_still_mutates_state :
    (setColorCameraResolution res640 (-1) initState).bgFrame.colorImage =
      initState.bgFrame.colorImage ∧
    (setColorCameraResolution res640 (-1) initState).colorResolution ≠
      initState.colorResolution ∧
    setColorCameraResolution res640 (-1) initState ≠ initState := by
  decide

/-- C7: for every mesh file whose vertex records parse to a nonempty vertex
list, `LoadScan` returns exactly the loaded vertices translated by minus
their average (`meshCenter`), and consequently the returned vertices sum to
zero. -/
theorem loadScan_centers_vertices (conv : FVec → FVec) (ls : List MeshLine)
    (h : loadVertices conv ls ≠ []) :
    (loadScan conv (some ls)).1 =
      (loadVertices conv ls).map
        (fun v => v - meshCenter (loadVertices conv ls)) ∧
    sumVec (loadScan conv (some ls)).1 = 0 := by
  have h1 : (loadScan conv (some ls)).1 =
      (loadVertices conv ls).map
        (fun v => v - meshCenter (loadVertices conv ls)) := rfl
  have hne : ((loadVertices conv ls).length : ℚ) ≠ 0 :=
    Nat.cast_ne_zero.mpr (fun hlen => h (List.length_eq_zero.mp hlen))
  refine ⟨h1, ?_⟩
  rw [h1, sumVec_map_sub, meshCenter, smul_smul, mul_inv_cancel₀ hne, one_smul,
    sub_self]

/-- Witness for C7 on the two-triangle mesh. -/
theorem loadScan_centers_vertices_witness :
    loadVertices id twoTriangleMesh ≠ [] ∧
    sumVec (loadScan id (some twoTriangleMesh)).1 = 0 :=
  ⟨by decide, (loadScan_centers_vertices id twoTriangleMesh (by decide)).2⟩

/-- C8: for a filename that does not name an openable file, `LoadScan`
returns with the three output collections empty — they are cleared before
the open is attempted, and there is no other error signal. -/
theorem loadScan_missing_file_returns_empty (conv : FVec → FVec) :
    loadScan conv none = ([], [], []) := rfl

/-- C9: `StartScanning` sets the scan-start request and resets
`scanCompleted` to false; along any subsequent trace in which no loop
iteration processes a reconstruct request, `scanCompleted` stays false. -/
theorem start_scanning_clears_completion (ops : List Op) (s : RSState)
    (h : noReconstructProcessed ops (startScanning s) = true) :
    (startScanning s).scanStarted = true ∧
    (startScanning s).scanCompleted = false ∧
    (run ops (startScanning s)).scanCompleted = false := by
  have aux : ∀ (l : List Op) (t : RSState), t.scanCompleted = false →
      noReconstructProcessed l t = true → (run l t).scanCompleted = false := by
    intro l
    induction l with
    | nil =>
        intro t hc _
        simpa [run] using hc
    | cons op rest ih =>
        intro t hc hn
        rw [noReconstructProcessed] at hn
        rcases (by simpa using hn :
            processesReconstruct op t = false ∧
            noReconstructProcessed rest (step op t) = true) with ⟨hp, hrest⟩
        have hrun : run (op :: rest) t = run rest (step op t) := rfl
        rw [hrun]
        exact ih (step op t) (step_scanCompleted_false op t hc hp) hrest
  exact ⟨by simp [startScanning], by simp [startScanning],
    aux ops (startScanning s) (by simp [startScanning]) h⟩

/-- Witness for C9 on a concrete trace. -/
theorem start_scanning_clears_completion_witness :
    noReconstructProcessed [Op.iteration colorFrameInput, Op.acquire]
      (startScanning initState) = true ∧
    (run [Op.iteration colorFrameInput, Op.acquire]
      (startScanning initState)).scanCompleted = false :=
  ⟨by decide,
    (start_scanning_clears_completion [Op.iteration colorFrameInput, Op.acquire]
      initState (by decide)).2.2⟩

/-- C10: the recorded feature set only accumulates: enabling a feature sets
its bit, disabling never changes the set, and once a feature's bit is set
it survives every further operation — including explicit disables and the
`StopCamera` reset cycle, which disables and re-enables exactly the
recorded set. -/
theorem featureSet_only_accumulates (s : RSState) (f : RealSenseFeature)
    (ops : List Op) :
    (enableRealSenseFeature f s).realSenseFeatureSet &&& featureBit f ≠ 0 ∧
    (disableRealSenseFeature f s).realSenseFeatureSet = s.realSenseFeatureSet ∧
    (s.realSenseFeatureSet &&& featureBit f ≠ 0 →
      (run ops s).realSenseFeatureSet &&& featureBit f ≠ 0) := by
  refine ⟨?_, disableRealSenseFeature_featureSet f s, ?_⟩
  · rw [enableRealSenseFeature_featureSet]
    apply land_self_lor
    cases f <;> decide
  · intro h
    induction ops generalizing s with
    | nil => simpa [run] using h
    | cons op rest ih =>
        have hrun : run (op :: rest) s = run rest (step op s) := rfl
        rw [hrun]
        exact ih (step op s) (step_keepBit op (featureBit f) s h)

/-- Witness for C10: `SCAN_3D`, once enabled, stays in the recorded feature
set across an explicit disable followed by the `StopCamera` reset cycle. -/
theorem featureSet_only_accumulates_witness :
    (enableRealSenseFeature .SCAN_3D initState).realSenseFeatureSet &&&
      featureBit .SCAN_3D ≠ 0 ∧
    (run [Op.disableFeature .SCAN_3D, Op.stopCam]
        (enableRealSenseFeature .SCAN_3D initState)).realSenseFeatureSet &&&
      featureBit .SCAN_3D ≠ 0 :=
  ⟨(featureSet_only_accumulates initState .SCAN_3D []).1,
    (featureSet_only_accumulates (enableRealSenseFeature .SCAN_3D initState)
        .SCAN_3D [Op.disableFeature .SCAN_3D, Op.stopCam]).2.2 (by decide)⟩

end RealSense
